import Mathlib

/-!
Verification of the proctoring violation tracker in `backend/proctoring.py`.

The tracker keeps one mutable record per user (`proctoring_violations`)
and updates it on every analyzed frame.  We embed the per-user state, the
custom smoothing function `avg`, the per-frame state transition of
`analyze_frame_proctoring`, and the store-level operations
`initialize_proctoring_state` / `clear_proctoring_state`.

Python floats are modelled as rationals; all numeric literals below are
the exact rational values of the float literals in the source.  The
image-decoding / MediaPipe front end is external to the tracker: a frame
is embedded as either one of the three rejected-input cases of
`analyze_frame_proctoring` (missing data, base64 failure, `imdecode`
returning `None`) or as the observation the geometry stage produces
(a face count and, for a single face, optional fitted pitch/yaw angles).
The human-readable reason strings built in the source are embedded as a
structured `Reason` value carrying exactly the data interpolated into the
corresponding f-string.
-/

namespace Proctoring

/-- `MAX_CONSECUTIVE_NO_FACE` (proctoring.py line 28). -/
def MAX_CONSECUTIVE_NO_FACE : Nat := 3

/-- `MAX_CONSECUTIVE_MULTI_FACE` (line 29). -/
def MAX_CONSECUTIVE_MULTI_FACE : Nat := 3

/-- `HEAD_POSE_YAW_THRESHOLD = 50.0` (line 33). -/
def HEAD_POSE_YAW_THRESHOLD : ℚ := 50

/-- `HEAD_POSE_PITCH_DOWN_THRESHOLD = -15.0` (line 34). -/
def HEAD_POSE_PITCH_DOWN_THRESHOLD : ℚ := -15

/-- `HEAD_POSE_PITCH_UP_THRESHOLD = 7000.0` (line 36); present in the
source but never used to set a violation flag. -/
def HEAD_POSE_PITCH_UP_THRESHOLD : ℚ := 7000

/-- `CHEAT_THRESH = 0.6` (line 39). -/
def CHEAT_THRESH : ℚ := 6/10

/-- `STREAK_PENALTY_INCREMENT = 0.3` (line 42). -/
def STREAK_PENALTY_INCREMENT : ℚ := 3/10

/-- `MAX_HEAD_POSE_STREAK_PENALTY = 5` (line 43). -/
def MAX_HEAD_POSE_STREAK_PENALTY : Nat := 5

/-- `FAST_DECAY_DIVISOR = 1.05` (line 46), used when recovering from a
flagged state. -/
def FAST_DECAY_DIVISOR : ℚ := 105/100

/-- The literal divisor `1.01` of the ordinary decay branch (line 68). -/
def SLOW_DECAY_DIVISOR : ℚ := 101/100

/-- The `avg` smoothing function (lines 53-71), translated branch by
branch.  `is_recovering_from_flagged` selects the faster decay divisor. -/
def avg (current previous : ℚ) (is_recovering_from_flagged : Bool) : ℚ :=
  if previous > 1 then 65/100
  else if current = 0 then
    (if previous < 1/100 then 1/100
     else if is_recovering_from_flagged then previous / FAST_DECAY_DIVISOR
     else previous / SLOW_DECAY_DIVISOR)
  else if previous = 0 then current
  else 1 * previous + (1/10) * current

/-- The per-user record stored in `proctoring_violations` (lines 78-84). -/
structure PState where
  no_face_streak : Nat
  multi_face_streak : Nat
  cheat_percentage : ℚ
  global_cheat_flag : Nat
  head_pose_violation_streak : Nat
deriving DecidableEq

/-- The record written by `initialize_proctoring_state` and by the
self-healing branch of `analyze_frame_proctoring` (lines 78-84, 193-197):
all counters zero. -/
def FRESH_STATE : PState := ⟨0, 0, 0, 0, 0⟩

/-- Structured embedding of the result strings of
`analyze_frame_proctoring`: each constructor corresponds to one of the
f-strings in the source and carries exactly the interpolated data.
`noFace s l` is "No face detected (s/l)" (line 219), `multiFace` the
line-231 analogue, `headPose ta ld sc` is "Head turned away / looking
down (Score: sc)" (lines 333-340), `suspicious sc` the line-342 fallback,
and the first three are the strings of the rejected-input returns. -/
inductive Reason where
  | ok
  | inputError
  | decodeError
  | serverError
  | noFace (streak limit : Nat)
  | multiFace (streak limit : Nat)
  | headPose (turnedAway lookingDown : Bool) (score : ℚ)
  | suspicious (score : ℚ)
deriving DecidableEq

/-- The dictionary returned by `analyze_frame_proctoring` (lines 104,
115, 118, 364-373), restricted to the fields the claims mention. -/
structure PResult where
  success : Bool
  cheating_detected : Bool
  reason : Reason
  num_faces : Nat
  head_pose_score : ℚ
deriving DecidableEq

/-- The nested `current_val_for_avg` table (lines 256-302) as a function
of `global_cheat_flag`, `yaw_violation_flag`, `pitch_violation_flag` and
`audio_cheat_flag`, exactly following the if/else nesting of the source. -/
def current_val_table (g y p a : Nat) : ℚ :=
  if g = 0 then
    (if y = 0 then
      (if p = 0 then (if a = 0 then 0 else 1/5)
       else (if a = 0 then 1/5 else 2/5))
     else
      (if p = 0 then (if a = 0 then 1/10 else 2/5)
       else (if a = 0 then 3/20 else 1/4)))
  else
    (if y = 0 then
      (if p = 0 then (if a = 0 then 0 else 11/20)
       else (if a = 0 then 11/20 else 17/20))
     else
      (if p = 0 then (if a = 0 then 3/5 else 17/20)
       else (if a = 0 then 1/2 else 17/20)))

/-- Head-pose streak update of the single-face branch (lines 243-251):
increment capped at `MAX_HEAD_POSE_STREAK_PENALTY` on a violation frame,
reset to zero otherwise unless the stored score already exceeds
`CHEAT_THRESH`. -/
def updated_head_pose_streak (st : PState) (y p : Nat) : Nat :=
  if y = 1 ∨ p = 1 then
    min (st.head_pose_violation_streak + 1) MAX_HEAD_POSE_STREAK_PENALTY
  else if ¬ (st.cheat_percentage > CHEAT_THRESH) then 0
  else st.head_pose_violation_streak

/-- `current_val_for_avg` after the streak penalty (lines 256-309):
table value plus `streak * STREAK_PENALTY_INCREMENT`, clamped at 5, when
the updated streak is positive.  `audio_cheat_flag` is the constant 0 of
line 206. -/
def current_val_for_avg (st : PState) (y p : Nat) : ℚ :=
  if updated_head_pose_streak st y p > 0 then
    min (current_val_table st.global_cheat_flag y p 0 +
          (updated_head_pose_streak st y p : ℚ) * STREAK_PENALTY_INCREMENT) 5
  else current_val_table st.global_cheat_flag y p 0

/-- `new_cheat_percentage` (lines 313-319): the `avg` update, with the
recovery flag set when the previous frame was globally flagged and the
current behaviour is clean. -/
def new_cheat_percentage (st : PState) (y p : Nat) : ℚ :=
  avg (current_val_for_avg st y p) st.cheat_percentage
    (decide (st.global_cheat_flag = 1 ∧ current_val_for_avg st y p = 0))

/-- Single-face branch of `analyze_frame_proctoring` (lines 236-357):
both face-count streaks reset; the smoothed score is stored; if it
exceeds `CHEAT_THRESH` the verdict is cheating, the head-pose streak is
reset, the global flag is set and the stored score is capped back to
exactly `CHEAT_THRESH` (lines 322-354); otherwise the flag is cleared. -/
def single_face_step (st : PState) (y p : Nat) : PResult × PState :=
  if new_cheat_percentage st y p > CHEAT_THRESH then
    (⟨true, true,
      (if y = 1 ∨ p = 1 then
        Reason.headPose (y == 1) (p == 1) (new_cheat_percentage st y p)
       else Reason.suspicious (new_cheat_percentage st y p)),
      1, CHEAT_THRESH⟩,
     ⟨0, 0, CHEAT_THRESH, 1,
      (if updated_head_pose_streak st y p > 0 then 0
       else updated_head_pose_streak st y p)⟩)
  else
    (⟨true, false, Reason.ok, 1, new_cheat_percentage st y p⟩,
     ⟨0, 0, new_cheat_percentage st y p, 0, updated_head_pose_streak st y p⟩)

/-- State transition and result of `analyze_frame_proctoring` once the
frame has been decoded (lines 187-373), as a function of the face count
and the two head-pose violation flags.  In the zero-face and multi-face
branches only the streak counters are written back to the state: the
threshold snap of lines 220-221 and 232-233 goes to local variables that
are never stored, so `cheat_percentage` and `global_cheat_flag` are
returned and kept unchanged there. -/
def analyze_step (st : PState) (num_faces y p : Nat) : PResult × PState :=
  if num_faces = 0 then
    (if st.no_face_streak + 1 ≥ MAX_CONSECUTIVE_NO_FACE then
      (⟨true, true, Reason.noFace (st.no_face_streak + 1) MAX_CONSECUTIVE_NO_FACE,
        num_faces, st.cheat_percentage⟩,
       ⟨st.no_face_streak + 1, 0, st.cheat_percentage, st.global_cheat_flag, 0⟩)
     else
      (⟨true, false, Reason.ok, num_faces, st.cheat_percentage⟩,
       ⟨st.no_face_streak + 1, 0, st.cheat_percentage, st.global_cheat_flag, 0⟩))
  else if num_faces > 1 then
    (if st.multi_face_streak + 1 ≥ MAX_CONSECUTIVE_MULTI_FACE then
      (⟨true, true, Reason.multiFace (st.multi_face_streak + 1) MAX_CONSECUTIVE_MULTI_FACE,
        num_faces, st.cheat_percentage⟩,
       ⟨0, st.multi_face_streak + 1, st.cheat_percentage, st.global_cheat_flag, 0⟩)
     else
      (⟨true, false, Reason.ok, num_faces, st.cheat_percentage⟩,
       ⟨0, st.multi_face_streak + 1, st.cheat_percentage, st.global_cheat_flag, 0⟩))
  else
    single_face_step st y p

/-- Frame input as seen by `analyze_frame_proctoring`: the three rejected
cases of lines 103-118 (falsy data url, base64/split failure, `imdecode`
returning `None`), or a decoded frame abstracted by the geometry stage's
output: the detected face count and, when the mesh / solvePnP pipeline
succeeds on a single face, the scaled (pitch, yaw) angle pair. -/
inductive FrameInput where
  | missing
  | invalidBase64
  | undecodableImage
  | frame (num_faces : Nat) (pose : Option (ℚ × ℚ))
deriving DecidableEq

/-- Violation-flag computation (lines 130-176): both flags stay 0 unless
exactly one face was detected and a pose was fitted; then the yaw flag
fires on `|yaw| > HEAD_POSE_YAW_THRESHOLD` and the pitch flag on
`pitch < HEAD_POSE_PITCH_DOWN_THRESHOLD` (looking down only). -/
def pose_flags (num_faces : Nat) (pose : Option (ℚ × ℚ)) : Nat × Nat :=
  if num_faces = 1 then
    match pose with
    | some pa =>
        ((if |pa.2| > HEAD_POSE_YAW_THRESHOLD then 1 else 0),
         (if pa.1 < HEAD_POSE_PITCH_DOWN_THRESHOLD then 1 else 0))
    | none => (0, 0)
  else (0, 0)

/-- `initialize_proctoring_state` (lines 75-85) on the user-keyed store. -/
def init_proctoring_state (u : Nat) (s : Nat → Option PState) :
    Nat → Option PState :=
  fun v => if v = u then some FRESH_STATE else s v

/-- `clear_proctoring_state` (lines 87-92): deletes the entry if present;
a no-op otherwise. -/
def clear_proctoring_state (u : Nat) (s : Nat → Option PState) :
    Nat → Option PState :=
  fun v => if v = u then none else s v

/-- `analyze_frame_proctoring` (lines 94-373) at the store level.  The
three rejected-input cases return `success = False` before the state
section is reached, leaving the store untouched (with `num_faces` 0 and
`head_pose_score` 0.0 as in the source's early returns).  A decoded frame
is analyzed against the user's record, self-healing to a fresh record
when none exists (lines 192-198), and the updated record is stored. -/
def analyze_frame_proctoring (u : Nat) (input : FrameInput)
    (s : Nat → Option PState) : PResult × (Nat → Option PState) :=
  match input with
  | .missing => (⟨false, false, Reason.inputError, 0, 0⟩, s)
  | .invalidBase64 => (⟨false, false, Reason.decodeError, 0, 0⟩, s)
  | .undecodableImage => (⟨false, false, Reason.decodeError, 0, 0⟩, s)
  | .frame n pose =>
      ((analyze_step ((s u).getD FRESH_STATE) n (pose_flags n pose).1
          (pose_flags n pose).2).1,
       fun v => if v = u then
          some (analyze_step ((s u).getD FRESH_STATE) n (pose_flags n pose).1
                  (pose_flags n pose).2).2
        else s v)

/-- One single-face frame with a yaw violation and compliant pitch. -/
def yaw_step (st : PState) : PState := (analyze_step st 1 1 0).2

/-- Iterated yaw-violation frames. -/
def yaw_run (st : PState) : Nat → PState
  | 0 => st
  | k + 1 => yaw_step (yaw_run st k)

/-- One single-face frame with no head-pose violation. -/
def clean_step (st : PState) : PState := (analyze_step st 1 0 0).2

/-- One zero-face frame. -/
def no_face_step (st : PState) : PState := (analyze_step st 0 0 0).2

end Proctoring

namespace Proctoring

/-- Every entry of the current-value table is non-negative. -/
theorem current_val_table_nonneg (g y p a : Nat) : 0 ≤ current_val_table g y p a := by
  unfold current_val_table; split_ifs <;> norm_num

/-- With a silent audio flag, every table entry is at most 3/5. -/
theorem current_val_table_le (g y p : Nat) : current_val_table g y p 0 ≤ 3/5 := by
  simp only [current_val_table]
  norm_num
  split_ifs <;> norm_num

/-- With no violation flags and silent audio the table entry is 0, whatever the global flag. -/
theorem current_val_table_clean (g : Nat) : current_val_table g 0 0 0 = 0 := by
  simp [current_val_table]

/-- On a frame with a yaw or pitch violation the table entry is at least 1/10. -/
theorem current_val_table_violation (g y p : Nat) (h : y = 1 ∨ p = 1) :
    1/10 ≤ current_val_table g y p 0 := by
  rcases h with h | h <;> subst h <;> simp only [current_val_table] <;> norm_num <;>
    split_ifs <;> norm_num

/-- On a no-violation frame with stored score at most the threshold, the head-pose streak resets to 0. -/
theorem updated_streak_clean (st : PState) (h1 : st.cheat_percentage ≤ CHEAT_THRESH) :
    updated_head_pose_streak st 0 0 = 0 := by
  unfold updated_head_pose_streak
  rw [if_neg (by norm_num), if_pos (not_lt.mpr h1)]

/-- On a no-violation frame with stored score at most the threshold, the penalised current value is 0. -/
theorem cv_clean (st : PState) (h1 : st.cheat_percentage ≤ CHEAT_THRESH) :
    current_val_for_avg st 0 0 = 0 := by
  unfold current_val_for_avg
  rw [updated_streak_clean st h1]
  simp [current_val_table_clean]

/-- On a no-violation frame the score update is the zero-current branch of avg, with the recovery flag exactly when the session was globally flagged. -/
theorem new_clean (st : PState) (h1 : st.cheat_percentage ≤ CHEAT_THRESH) :
    new_cheat_percentage st 0 0 =
      avg 0 st.cheat_percentage (decide (st.global_cheat_flag = 1)) := by
  unfold new_cheat_percentage
  rw [cv_clean st h1]
  congr 1
  simp

/-- The zero-current branch of avg never lifts a score from within the threshold band above CHEAT_THRESH. -/
theorem avg_zero_le (pv : ℚ) (b : Bool) (h0 : 0 ≤ pv) (h1 : pv ≤ CHEAT_THRESH) :
    avg 0 pv b ≤ CHEAT_THRESH := by
  unfold avg
  rw [if_neg (not_lt.mpr (h1.trans (by norm_num [CHEAT_THRESH]))), if_pos rfl]
  split_ifs
  · norm_num [CHEAT_THRESH]
  · exact le_trans (div_le_self h0 (by norm_num [FAST_DECAY_DIVISOR])) h1
  · exact le_trans (div_le_self h0 (by norm_num [SLOW_DECAY_DIVISOR])) h1

/-- The stored score after a no-violation single-face frame is exactly the zero-current avg of the old score (the cap never fires there). -/
theorem clean_step_score (st : PState) (h0 : 0 ≤ st.cheat_percentage)
    (h1 : st.cheat_percentage ≤ CHEAT_THRESH) :
    (clean_step st).cheat_percentage =
      avg 0 st.cheat_percentage (decide (st.global_cheat_flag = 1)) := by
  have hle : new_cheat_percentage st 0 0 ≤ CHEAT_THRESH := by
    rw [new_clean st h1]
    exact avg_zero_le _ _ h0 h1
  unfold clean_step analyze_step single_face_step
  rw [if_neg (by norm_num), if_neg (by norm_num), if_neg (not_lt.mpr hle)]
  exact new_clean st h1

end Proctoring

namespace Proctoring

/-- Claim C1 is false as stated: with the same starting score 1/2, a no-violation single-face frame leaves the flagged session at 10/21 and the unflagged one at 50/101, so the flagged post-call score is strictly smaller, not greater. -/
theorem claim_C1_counterexample :
    ¬ ((clean_step ⟨0, 0, 1/2, 1, 0⟩).cheat_percentage >
        (clean_step ⟨0, 0, 1/2, 0, 0⟩).cheat_percentage) ∧
    (clean_step ⟨0, 0, 1/2, 1, 0⟩).cheat_percentage <
      (clean_step ⟨0, 0, 1/2, 0, 0⟩).cheat_percentage := by
  have ha : (clean_step ⟨0, 0, 1/2, 1, 0⟩).cheat_percentage = 10/21 := by
    rw [clean_step_score _ (by norm_num) (by norm_num [CHEAT_THRESH])]
    norm_num [avg, FAST_DECAY_DIVISOR, SLOW_DECAY_DIVISOR]
  have hb : (clean_step ⟨0, 0, 1/2, 0, 0⟩).cheat_percentage = 50/101 := by
    rw [clean_step_score _ (by norm_num) (by norm_num [CHEAT_THRESH])]
    norm_num [avg, FAST_DECAY_DIVISOR, SLOW_DECAY_DIVISOR]
  rw [ha, hb]
  norm_num

/-- Claim C1 (amended): while the session is flagged, a no-violation single-face frame divides the score by FAST_DECAY_DIVISOR = 1.05 instead of 1.01, a faster decay, so for the same starting score (at least 0.01, within the threshold band) the flagged post-call score is strictly less than the unflagged one. -/
theorem claim_C1_amended (a b : PState)
    (hsc : a.cheat_percentage = b.cheat_percentage)
    (h1 : 1/100 ≤ a.cheat_percentage) (h2 : a.cheat_percentage ≤ CHEAT_THRESH)
    (hga : a.global_cheat_flag = 1) (hgb : b.global_cheat_flag = 0) :
    (clean_step a).cheat_percentage = a.cheat_percentage / FAST_DECAY_DIVISOR ∧
    (clean_step b).cheat_percentage = b.cheat_percentage / SLOW_DECAY_DIVISOR ∧
    (clean_step a).cheat_percentage < (clean_step b).cheat_percentage := by
  have h0a : 0 ≤ a.cheat_percentage := le_trans (by norm_num) h1
  have hA : (clean_step a).cheat_percentage = a.cheat_percentage / FAST_DECAY_DIVISOR := by
    rw [clean_step_score a h0a h2, hga]
    unfold avg
    rw [if_neg (not_lt.mpr (h2.trans (by norm_num [CHEAT_THRESH]))), if_pos rfl,
      if_neg (not_lt.mpr h1)]
    simp
  have hB : (clean_step b).cheat_percentage = b.cheat_percentage / SLOW_DECAY_DIVISOR := by
    rw [clean_step_score b (hsc ▸ h0a) (hsc ▸ h2), hgb]
    unfold avg
    rw [if_neg (not_lt.mpr ((hsc ▸ h2).trans (by norm_num [CHEAT_THRESH]))), if_pos rfl,
      if_neg (not_lt.mpr (hsc ▸ h1))]
    simp
  refine ⟨hA, hB, ?_⟩
  rw [hA, hB, ← hsc]
  exact div_lt_div_of_pos_left (lt_of_lt_of_le (by norm_num) h1)
    (by norm_num [SLOW_DECAY_DIVISOR])
    (by norm_num [SLOW_DECAY_DIVISOR, FAST_DECAY_DIVISOR])

/-- Claim C1 witness: the amended theorem instantiated at starting score 1/2. -/
theorem claim_C1_witness :
    ((1:ℚ)/100 ≤ 1/2) ∧ ((1:ℚ)/2 ≤ CHEAT_THRESH) ∧
    ((clean_step ⟨0, 0, 1/2, 1, 0⟩).cheat_percentage = (1/2 : ℚ) / FAST_DECAY_DIVISOR ∧
     (clean_step ⟨0, 0, 1/2, 0, 0⟩).cheat_percentage = (1/2 : ℚ) / SLOW_DECAY_DIVISOR ∧
     (clean_step ⟨0, 0, 1/2, 1, 0⟩).cheat_percentage <
       (clean_step ⟨0, 0, 1/2, 0, 0⟩).cheat_percentage) :=
  ⟨by norm_num, by norm_num [CHEAT_THRESH],
   claim_C1_amended ⟨0, 0, 1/2, 1, 0⟩ ⟨0, 0, 1/2, 0, 0⟩ rfl (by norm_num)
     (by norm_num [CHEAT_THRESH]) rfl rfl⟩

/-- Claim C2 is false as stated: from a fresh state with score 0, one single-face no-violation frame raises the stored score to 0.01, so the score is not monotonically non-increasing and does not converge to 0. -/
theorem claim_C2_counterexample :
    FRESH_STATE.cheat_percentage = 0 ∧
    (clean_step FRESH_STATE).cheat_percentage = 1/100 ∧
    ¬ ((clean_step FRESH_STATE).cheat_percentage ≤ FRESH_STATE.cheat_percentage) := by
  have h : (clean_step FRESH_STATE).cheat_percentage = 1/100 := by
    rw [clean_step_score _ (by norm_num [FRESH_STATE]) (by norm_num [FRESH_STATE, CHEAT_THRESH])]
    norm_num [avg, FRESH_STATE]
  refine ⟨rfl, h, ?_⟩
  rw [h]
  norm_num [FRESH_STATE]

/-- Claim C2 (amended): on single-face no-violation frames the stored score is multiplied by at most 100/101 while it is at least 0.01 (geometric decay), and once at or below 0.01 the update lands in the interval from 1/105 to 1/100; the sequence therefore converges to a neighbourhood of 0.01, not to 0. -/
theorem claim_C2_amended (st : PState) (h0 : 0 ≤ st.cheat_percentage)
    (h1 : st.cheat_percentage ≤ CHEAT_THRESH) :
    (1/100 ≤ st.cheat_percentage →
        (clean_step st).cheat_percentage ≤ st.cheat_percentage * (100/101)) ∧
    (st.cheat_percentage ≤ 1/100 →
        1/105 ≤ (clean_step st).cheat_percentage ∧
        (clean_step st).cheat_percentage ≤ 1/100) := by
  rw [clean_step_score st h0 h1]
  constructor
  · intro hge
    unfold avg
    rw [if_neg (not_lt.mpr (h1.trans (by norm_num [CHEAT_THRESH]))), if_pos rfl,
      if_neg (not_lt.mpr hge)]
    have e1 : st.cheat_percentage / FAST_DECAY_DIVISOR =
        st.cheat_percentage * (20/21) := by
      rw [FAST_DECAY_DIVISOR]; ring
    have e2 : st.cheat_percentage / SLOW_DECAY_DIVISOR =
        st.cheat_percentage * (100/101) := by
      rw [SLOW_DECAY_DIVISOR]; ring
    split_ifs
    · rw [e1]
      exact mul_le_mul_of_nonneg_left (by norm_num) h0
    · rw [e2]
  · intro hle
    unfold avg
    rw [if_neg (not_lt.mpr (h1.trans (by norm_num [CHEAT_THRESH]))), if_pos rfl]
    rcases lt_or_ge st.cheat_percentage (1/100) with hlt | hge2
    · rw [if_pos hlt]
      norm_num
    · have heq : st.cheat_percentage = 1/100 := le_antisymm hle hge2
      rw [if_neg (not_lt.mpr hge2), heq]
      split_ifs <;> norm_num [FAST_DECAY_DIVISOR, SLOW_DECAY_DIVISOR]

/-- Claim C2 witness: the amended decay bound instantiated at starting score 1/2. -/
theorem claim_C2_witness :
    ((0:ℚ) ≤ 1/2) ∧ ((1:ℚ)/2 ≤ CHEAT_THRESH) ∧ ((1:ℚ)/100 ≤ 1/2) ∧
    (clean_step ⟨0, 0, 1/2, 0, 0⟩).cheat_percentage ≤ (1/2 : ℚ) * (100/101) := by
  refine ⟨by norm_num, by norm_num [CHEAT_THRESH], by norm_num, ?_⟩
  exact (claim_C2_amended ⟨0, 0, 1/2, 0, 0⟩ (by norm_num)
    (by norm_num [CHEAT_THRESH])).1 (by norm_num)

end Proctoring

namespace Proctoring

/-- Claim C3 is false as stated: a zero-face frame leaves the stored suspicion score unchanged, so below the limit it is not reset to 0.0 (it stays 1/2 here), and at the limit the stored and returned score is the old value 1/2, not CHEAT_THRESH, even though the violation fires. -/
theorem claim_C3_counterexample :
    ((analyze_step ⟨0, 0, 1/2, 0, 0⟩ 0 0 0).2.cheat_percentage = 1/2 ∧
     (1:ℚ)/2 ≠ 0) ∧
    ((analyze_step ⟨2, 0, 1/2, 0, 0⟩ 0 0 0).1.cheating_detected = true ∧
     (analyze_step ⟨2, 0, 1/2, 0, 0⟩ 0 0 0).1.head_pose_score = 1/2 ∧
     (analyze_step ⟨2, 0, 1/2, 0, 0⟩ 0 0 0).2.cheat_percentage = 1/2 ∧
     (1:ℚ)/2 ≠ CHEAT_THRESH) := by
  norm_num [analyze_step, MAX_CONSECUTIVE_NO_FACE, CHEAT_THRESH]

/-- Claim C3 (amended): a zero-face frame leaves the stored score and global flag unchanged and returns the unchanged stored score; it increments the no-face streak, and exactly when the incremented streak reaches MAX_CONSECUTIVE_NO_FACE it emits a cheating verdict with the no-face reason and streak count. The snap of the score to the threshold in the source only writes local variables that are never stored or returned. -/
theorem claim_C3_amended (st : PState) (y p : Nat) :
    (analyze_step st 0 y p).2.cheat_percentage = st.cheat_percentage ∧
    (analyze_step st 0 y p).2.global_cheat_flag = st.global_cheat_flag ∧
    (analyze_step st 0 y p).1.head_pose_score = st.cheat_percentage ∧
    (analyze_step st 0 y p).2.no_face_streak = st.no_face_streak + 1 ∧
    (st.no_face_streak + 1 ≥ MAX_CONSECUTIVE_NO_FACE →
      (analyze_step st 0 y p).1.cheating_detected = true ∧
      (analyze_step st 0 y p).1.reason =
        Reason.noFace (st.no_face_streak + 1) MAX_CONSECUTIVE_NO_FACE) ∧
    (st.no_face_streak + 1 < MAX_CONSECUTIVE_NO_FACE →
      (analyze_step st 0 y p).1.cheating_detected = false) := by
  unfold analyze_step
  rw [if_pos rfl]
  split_ifs with h
  · exact ⟨rfl, rfl, rfl, rfl, fun _ => ⟨rfl, rfl⟩,
      fun hlt => absurd h (not_le.mpr hlt)⟩
  · exact ⟨rfl, rfl, rfl, rfl, fun hge => absurd hge h, fun _ => rfl⟩

/-- Claim C3 witness: the amended theorem instantiated at a state with streak 2 and score 1/4, where the third consecutive no-face frame flags but the score stays 1/4. -/
theorem claim_C3_witness :
    (analyze_step ⟨2, 0, 1/4, 0, 0⟩ 0 0 0).2.cheat_percentage = 1/4 ∧
    (analyze_step ⟨2, 0, 1/4, 0, 0⟩ 0 0 0).2.global_cheat_flag = 0 ∧
    (analyze_step ⟨2, 0, 1/4, 0, 0⟩ 0 0 0).1.head_pose_score = 1/4 ∧
    (analyze_step ⟨2, 0, 1/4, 0, 0⟩ 0 0 0).1.cheating_detected = true ∧
    (analyze_step ⟨2, 0, 1/4, 0, 0⟩ 0 0 0).1.reason =
      Reason.noFace 3 MAX_CONSECUTIVE_NO_FACE := by
  have h := claim_C3_amended ⟨2, 0, 1/4, 0, 0⟩ 0 0
  have hge := h.2.2.2.2.1 (by norm_num [MAX_CONSECUTIVE_NO_FACE])
  exact ⟨h.1, h.2.1, h.2.2.1, hge.1, hge.2⟩

/-- Claim C4 is false at the threshold boundary: from a flagged state with score 0.63, a clean single-face frame applies the recovery decay 0.63 / 1.05, whose result is exactly CHEAT_THRESH (also in IEEE doubles, where 0.63/1.05 == 0.6), yet the verdict is not cheating and the global flag is cleared, because the source compares with strict greater-than rather than the claimed greater-or-equal. -/
theorem claim_C4_counterexample :
    new_cheat_percentage ⟨0, 0, 63/100, 1, 0⟩ 0 0 = CHEAT_THRESH ∧
    (analyze_step ⟨0, 0, 63/100, 1, 0⟩ 1 0 0).1.cheating_detected = false ∧
    (analyze_step ⟨0, 0, 63/100, 1, 0⟩ 1 0 0).2.global_cheat_flag = 0 ∧
    (analyze_step ⟨0, 0, 63/100, 1, 0⟩ 1 0 0).1.head_pose_score = CHEAT_THRESH := by
  norm_num [analyze_step, single_face_step, new_cheat_percentage, current_val_for_avg,
    updated_head_pose_streak, current_val_table, avg, CHEAT_THRESH,
    STREAK_PENALTY_INCREMENT, MAX_HEAD_POSE_STREAK_PENALTY, FAST_DECAY_DIVISOR, min_def]

/-- Claim C4 (amended): on single-face frames, if the smoothed score is strictly greater than CHEAT_THRESH the call returns a cheating verdict whose reason names the triggering flags (turned away, looking down, or a generic fallback when neither is set), snaps the stored and returned score to exactly CHEAT_THRESH and sets the global flag; if the score is less than or equal to the threshold the verdict is not cheating and the global flag is cleared. -/
theorem claim_C4_amended (st : PState) (y p : Nat) :
    (new_cheat_percentage st y p > CHEAT_THRESH →
       (analyze_step st 1 y p).1.cheating_detected = true ∧
       (analyze_step st 1 y p).2.cheat_percentage = CHEAT_THRESH ∧
       (analyze_step st 1 y p).1.head_pose_score = CHEAT_THRESH ∧
       (analyze_step st 1 y p).2.global_cheat_flag = 1 ∧
       (analyze_step st 1 y p).1.reason =
         (if y = 1 ∨ p = 1 then
            Reason.headPose (y == 1) (p == 1) (new_cheat_percentage st y p)
          else Reason.suspicious (new_cheat_percentage st y p))) ∧
    (new_cheat_percentage st y p ≤ CHEAT_THRESH →
       (analyze_step st 1 y p).1.cheating_detected = false ∧
       (analyze_step st 1 y p).2.global_cheat_flag = 0 ∧
       (analyze_step st 1 y p).2.cheat_percentage = new_cheat_percentage st y p) := by
  have hstep : analyze_step st 1 y p = single_face_step st y p := by
    simp [analyze_step]
  rw [hstep]
  unfold single_face_step
  constructor
  · intro h
    rw [if_pos h]
    exact ⟨rfl, rfl, rfl, rfl, rfl⟩
  · intro h
    rw [if_neg (not_lt.mpr h)]
    exact ⟨rfl, rfl, rfl⟩

/-- Claim C4 witness: the amended theorem at a state with score 3/5 and streak 4, where a yaw frame pushes the smoothed score to 0.76 and the verdict, snap and reason all fire. -/
theorem claim_C4_witness :
    new_cheat_percentage ⟨0, 0, 3/5, 0, 4⟩ 1 0 > CHEAT_THRESH ∧
    ((analyze_step ⟨0, 0, 3/5, 0, 4⟩ 1 1 0).1.cheating_detected = true ∧
     (analyze_step ⟨0, 0, 3/5, 0, 4⟩ 1 1 0).2.cheat_percentage = CHEAT_THRESH ∧
     (analyze_step ⟨0, 0, 3/5, 0, 4⟩ 1 1 0).1.head_pose_score = CHEAT_THRESH ∧
     (analyze_step ⟨0, 0, 3/5, 0, 4⟩ 1 1 0).2.global_cheat_flag = 1 ∧
     (analyze_step ⟨0, 0, 3/5, 0, 4⟩ 1 1 0).1.reason =
       (if (1:ℕ) = 1 ∨ (0:ℕ) = 1 then
          Reason.headPose ((1:ℕ) == 1) ((0:ℕ) == 1)
            (new_cheat_percentage ⟨0, 0, 3/5, 0, 4⟩ 1 0)
        else Reason.suspicious (new_cheat_percentage ⟨0, 0, 3/5, 0, 4⟩ 1 0))) := by
  have h : new_cheat_percentage ⟨0, 0, 3/5, 0, 4⟩ 1 0 > CHEAT_THRESH := by
    norm_num [new_cheat_percentage, current_val_for_avg, updated_head_pose_streak,
      current_val_table, avg, CHEAT_THRESH, STREAK_PENALTY_INCREMENT,
      MAX_HEAD_POSE_STREAK_PENALTY, min_def]
  exact ⟨h, (claim_C4_amended ⟨0, 0, 3/5, 0, 4⟩ 1 0).1 h⟩

/-- Claim C5: any zero-face frame whose incremented streak reaches MAX_CONSECUTIVE_NO_FACE returns a cheating verdict regardless of the prior score or flags, and from a fresh state three consecutive zero-face frames return not-cheating, not-cheating, cheating with the no-face reason and streak 3 of 3. -/
theorem claim_C5 (st : PState) (y p : Nat)
    (h : st.no_face_streak + 1 ≥ MAX_CONSECUTIVE_NO_FACE) :
    (analyze_step st 0 y p).1.cheating_detected = true ∧
    ((analyze_step FRESH_STATE 0 0 0).1.cheating_detected = false ∧
     (analyze_step (no_face_step FRESH_STATE) 0 0 0).1.cheating_detected = false ∧
     (analyze_step (no_face_step (no_face_step FRESH_STATE)) 0 0 0).1.cheating_detected
        = true ∧
     (analyze_step (no_face_step (no_face_step FRESH_STATE)) 0 0 0).1.reason =
        Reason.noFace 3 MAX_CONSECUTIVE_NO_FACE) := by
  constructor
  · unfold analyze_step
    rw [if_pos rfl, if_pos h]
  · refine ⟨?_, ?_, ?_, ?_⟩ <;>
      norm_num [analyze_step, no_face_step, FRESH_STATE, MAX_CONSECUTIVE_NO_FACE]

/-- Claim C5 witness: the theorem instantiated at a state with no-face streak 2. -/
theorem claim_C5_witness :
    (⟨2, 0, 0, 0, 0⟩ : PState).no_face_streak + 1 ≥ MAX_CONSECUTIVE_NO_FACE ∧
    ((analyze_step ⟨2, 0, 0, 0, 0⟩ 0 0 0).1.cheating_detected = true ∧
     ((analyze_step FRESH_STATE 0 0 0).1.cheating_detected = false ∧
      (analyze_step (no_face_step FRESH_STATE) 0 0 0).1.cheating_detected = false ∧
      (analyze_step (no_face_step (no_face_step FRESH_STATE)) 0 0 0).1.cheating_detected
         = true ∧
      (analyze_step (no_face_step (no_face_step FRESH_STATE)) 0 0 0).1.reason =
         Reason.noFace 3 MAX_CONSECUTIVE_NO_FACE)) :=
  ⟨by norm_num [MAX_CONSECUTIVE_NO_FACE],
   claim_C5 ⟨2, 0, 0, 0, 0⟩ 0 0 (by norm_num [MAX_CONSECUTIVE_NO_FACE])⟩

/-- Claim C6 is false as stated: no single constant INCREASE_FACTOR satisfies score_new = score_old + INCREASE_FACTOR * (1 - score_old) on yaw-violation frames, since the update from score 0 forces the constant 2/5 while the update from score 1/2 contradicts it. -/
theorem claim_C6_counterexample :
    ¬ ∃ c : ℚ, ∀ st : PState,
        new_cheat_percentage st 1 0 =
          st.cheat_percentage + c * (1 - st.cheat_percentage) := by
  rintro ⟨c, hc⟩
  have h1 := hc FRESH_STATE
  have h2 := hc ⟨0, 0, 1/2, 0, 0⟩
  rw [show new_cheat_percentage FRESH_STATE 1 0 = 2/5 from by
    norm_num [new_cheat_percentage, current_val_for_avg, updated_head_pose_streak,
      current_val_table, avg, CHEAT_THRESH, STREAK_PENALTY_INCREMENT,
      MAX_HEAD_POSE_STREAK_PENALTY, min_def, FRESH_STATE]] at h1
  rw [show new_cheat_percentage ⟨0, 0, 1/2, 0, 0⟩ 1 0 = 27/50 from by
    norm_num [new_cheat_percentage, current_val_for_avg, updated_head_pose_streak,
      current_val_table, avg, CHEAT_THRESH, STREAK_PENALTY_INCREMENT,
      MAX_HEAD_POSE_STREAK_PENALTY, min_def, FRESH_STATE]] at h2
  norm_num [FRESH_STATE] at h1 h2
  linarith

/-- Claim C6 (amended): on a single-face violation frame the update is additive, not proportional to (1 - score): the penalised current value is the table entry for the flags plus the capped incremented streak times STREAK_PENALTY_INCREMENT, and the new score is score_old plus one tenth of that value when score_old is positive, or the value itself when score_old is 0. -/
theorem claim_C6_amended (st : PState) (y p : Nat) (hv : y = 1 ∨ p = 1)
    (h0 : 0 ≤ st.cheat_percentage) (h1 : st.cheat_percentage ≤ 1) :
    current_val_for_avg st y p =
      current_val_table st.global_cheat_flag y p 0 +
        ((min (st.head_pose_violation_streak + 1) MAX_HEAD_POSE_STREAK_PENALTY : Nat) : ℚ) *
          STREAK_PENALTY_INCREMENT ∧
    (0 < st.cheat_percentage →
      new_cheat_percentage st y p =
        st.cheat_percentage + (1/10) * current_val_for_avg st y p) ∧
    (st.cheat_percentage = 0 →
      new_cheat_percentage st y p = current_val_for_avg st y p) := by
  have hs : updated_head_pose_streak st y p =
      min (st.head_pose_violation_streak + 1) MAX_HEAD_POSE_STREAK_PENALTY := by
    unfold updated_head_pose_streak
    rw [if_pos hv]
  have hs1 : 1 ≤ min (st.head_pose_violation_streak + 1) MAX_HEAD_POSE_STREAK_PENALTY :=
    le_min (Nat.succ_le_succ (Nat.zero_le _)) (by norm_num [MAX_HEAD_POSE_STREAK_PENALTY])
  have hcast : ((min (st.head_pose_violation_streak + 1) MAX_HEAD_POSE_STREAK_PENALTY :
      Nat) : ℚ) ≤ 5 := by
    have := min_le_right (st.head_pose_violation_streak + 1) MAX_HEAD_POSE_STREAK_PENALTY
    calc ((min (st.head_pose_violation_streak + 1) MAX_HEAD_POSE_STREAK_PENALTY :
        Nat) : ℚ) ≤ (MAX_HEAD_POSE_STREAK_PENALTY : ℚ) := by exact_mod_cast this
      _ = 5 := by norm_num [MAX_HEAD_POSE_STREAK_PENALTY]
  have hcv : current_val_for_avg st y p =
      current_val_table st.global_cheat_flag y p 0 +
        ((min (st.head_pose_violation_streak + 1) MAX_HEAD_POSE_STREAK_PENALTY : Nat) : ℚ) *
          STREAK_PENALTY_INCREMENT := by
    unfold current_val_for_avg
    rw [hs, if_pos (by omega : min (st.head_pose_violation_streak + 1)
      MAX_HEAD_POSE_STREAK_PENALTY > 0)]
    apply min_eq_left
    have hb := current_val_table_le st.global_cheat_flag y p
    have hstc : ((min (st.head_pose_violation_streak + 1) MAX_HEAD_POSE_STREAK_PENALTY :
        Nat) : ℚ) * STREAK_PENALTY_INCREMENT ≤ 5 * (3/10) := by
      rw [STREAK_PENALTY_INCREMENT]
      exact mul_le_mul_of_nonneg_right hcast (by norm_num)
    linarith
  have hcvpos : 0 < current_val_for_avg st y p := by
    rw [hcv]
    have hb := current_val_table_violation st.global_cheat_flag y p hv
    have : (0:ℚ) ≤ ((min (st.head_pose_violation_streak + 1)
        MAX_HEAD_POSE_STREAK_PENALTY : Nat) : ℚ) * STREAK_PENALTY_INCREMENT := by
      apply mul_nonneg (Nat.cast_nonneg _)
      norm_num [STREAK_PENALTY_INCREMENT]
    linarith
  refine ⟨hcv, ?_, ?_⟩
  · intro hpos
    unfold new_cheat_percentage avg
    rw [if_neg (not_lt.mpr h1), if_neg (ne_of_gt hcvpos), if_neg (ne_of_gt hpos), one_mul]
  · intro hz
    unfold new_cheat_percentage avg
    rw [if_neg (not_lt.mpr h1), if_neg (ne_of_gt hcvpos), if_pos hz]

/-- Claim C6 witness: the amended theorem instantiated at score 1/2 with a yaw violation. -/
theorem claim_C6_witness :
    ((1:ℕ) = 1 ∨ (0:ℕ) = 1) ∧ ((0:ℚ) ≤ 1/2) ∧ ((1:ℚ)/2 ≤ 1) ∧ ((0:ℚ) < 1/2) ∧
    current_val_for_avg ⟨0, 0, 1/2, 0, 0⟩ 1 0 =
      current_val_table 0 1 0 0 +
        ((min (0 + 1) MAX_HEAD_POSE_STREAK_PENALTY : Nat) : ℚ) *
          STREAK_PENALTY_INCREMENT ∧
    new_cheat_percentage ⟨0, 0, 1/2, 0, 0⟩ 1 0 =
      1/2 + (1/10) * current_val_for_avg ⟨0, 0, 1/2, 0, 0⟩ 1 0 := by
  have h := claim_C6_amended ⟨0, 0, 1/2, 0, 0⟩ 1 0 (Or.inl rfl) (by norm_num) (by norm_num)
  exact ⟨Or.inl rfl, by norm_num, by norm_num, by norm_num, h.1, h.2.1 (by norm_num)⟩

end Proctoring

namespace Proctoring

/-- avg maps non-negative inputs to a non-negative result. -/
theorem avg_nonneg (c pv : ℚ) (b : Bool) (hc : 0 ≤ c) (hp : 0 ≤ pv) :
    0 ≤ avg c pv b := by
  unfold avg
  split_ifs
  · norm_num
  · norm_num
  · exact div_nonneg hp (by norm_num [FAST_DECAY_DIVISOR])
  · exact div_nonneg hp (by norm_num [SLOW_DECAY_DIVISOR])
  · exact hc
  · nlinarith

/-- The penalised current value is never negative. -/
theorem current_val_for_avg_nonneg (st : PState) (y p : Nat) :
    0 ≤ current_val_for_avg st y p := by
  unfold current_val_for_avg
  split_ifs with h
  · refine le_min ?_ (by norm_num)
    have h1 := current_val_table_nonneg st.global_cheat_flag y p 0
    have h2 : (0:ℚ) ≤ (updated_head_pose_streak st y p : ℚ) * STREAK_PENALTY_INCREMENT :=
      mul_nonneg (Nat.cast_nonneg _) (by norm_num [STREAK_PENALTY_INCREMENT])
    linarith
  · exact current_val_table_nonneg st.global_cheat_flag y p 0

/-- From a non-negative stored score the smoothed update stays non-negative. -/
theorem new_cheat_percentage_nonneg (st : PState) (h : 0 ≤ st.cheat_percentage)
    (y p : Nat) : 0 ≤ new_cheat_percentage st y p :=
  avg_nonneg _ _ _ (current_val_for_avg_nonneg st y p) h

/-- Claim C7: from any state whose stored score lies in the band from 0 to CHEAT_THRESH, every analyze step keeps the stored score in that band; in particular the stored score never exceeds CHEAT_THRESH immediately after a cheating verdict. -/
theorem claim_C7 (st : PState) (h0 : 0 ≤ st.cheat_percentage)
    (h1 : st.cheat_percentage ≤ CHEAT_THRESH) (n y p : Nat) :
    0 ≤ (analyze_step st n y p).2.cheat_percentage ∧
    (analyze_step st n y p).2.cheat_percentage ≤ CHEAT_THRESH ∧
    ((analyze_step st n y p).1.cheating_detected = true →
      (analyze_step st n y p).2.cheat_percentage ≤ CHEAT_THRESH) := by
  unfold analyze_step
  split_ifs with hn0 hs hn1 hs2
  · exact ⟨h0, h1, fun _ => h1⟩
  · exact ⟨h0, h1, fun _ => h1⟩
  · exact ⟨h0, h1, fun _ => h1⟩
  · exact ⟨h0, h1, fun _ => h1⟩
  · unfold single_face_step
    by_cases hcheat : new_cheat_percentage st y p > CHEAT_THRESH
    · rw [if_pos hcheat]
      exact ⟨by norm_num [CHEAT_THRESH], le_rfl, fun _ => le_rfl⟩
    · rw [if_neg hcheat]
      exact ⟨new_cheat_percentage_nonneg st h0 y p, not_lt.mp hcheat,
        fun _ => not_lt.mp hcheat⟩

/-- Claim C7 witness: the invariant instantiated at the fresh state and a clean single-face frame. -/
theorem claim_C7_witness :
    ((0:ℚ) ≤ FRESH_STATE.cheat_percentage) ∧
    (FRESH_STATE.cheat_percentage ≤ CHEAT_THRESH) ∧
    0 ≤ (analyze_step FRESH_STATE 1 0 0).2.cheat_percentage ∧
    (analyze_step FRESH_STATE 1 0 0).2.cheat_percentage ≤ CHEAT_THRESH := by
  refine ⟨by norm_num [FRESH_STATE], by norm_num [FRESH_STATE, CHEAT_THRESH], ?_, ?_⟩
  · exact (claim_C7 FRESH_STATE (by norm_num [FRESH_STATE])
      (by norm_num [FRESH_STATE, CHEAT_THRESH]) 1 0 0).1
  · exact (claim_C7 FRESH_STATE (by norm_num [FRESH_STATE])
      (by norm_num [FRESH_STATE, CHEAT_THRESH]) 1 0 0).2.1

/-- On a violation frame the penalised current value is exactly the table entry plus the capped incremented streak times STREAK_PENALTY_INCREMENT (the clamp at 5 never binds). -/
theorem current_val_for_avg_violation (st : PState) (y p : Nat) (hv : y = 1 ∨ p = 1) :
    current_val_for_avg st y p =
      current_val_table st.global_cheat_flag y p 0 +
        ((min (st.head_pose_violation_streak + 1) MAX_HEAD_POSE_STREAK_PENALTY : Nat) : ℚ) *
          STREAK_PENALTY_INCREMENT := by
  have hs : updated_head_pose_streak st y p =
      min (st.head_pose_violation_streak + 1) MAX_HEAD_POSE_STREAK_PENALTY := by
    unfold updated_head_pose_streak
    rw [if_pos hv]
  have hcast : ((min (st.head_pose_violation_streak + 1) MAX_HEAD_POSE_STREAK_PENALTY :
      Nat) : ℚ) ≤ 5 := by
    have h := min_le_right (st.head_pose_violation_streak + 1) MAX_HEAD_POSE_STREAK_PENALTY
    calc ((min (st.head_pose_violation_streak + 1) MAX_HEAD_POSE_STREAK_PENALTY :
        Nat) : ℚ) ≤ (MAX_HEAD_POSE_STREAK_PENALTY : ℚ) := by exact_mod_cast h
      _ = 5 := by norm_num [MAX_HEAD_POSE_STREAK_PENALTY]
  unfold current_val_for_avg
  rw [hs, if_pos (lt_min (Nat.succ_pos _)
    (by norm_num [MAX_HEAD_POSE_STREAK_PENALTY]) :
      min (st.head_pose_violation_streak + 1) MAX_HEAD_POSE_STREAK_PENALTY > 0)]
  apply min_eq_left
  have hb := current_val_table_le st.global_cheat_flag y p
  have hstc : ((min (st.head_pose_violation_streak + 1) MAX_HEAD_POSE_STREAK_PENALTY :
      Nat) : ℚ) * STREAK_PENALTY_INCREMENT ≤ 5 * (3/10) := by
    rw [STREAK_PENALTY_INCREMENT]
    exact mul_le_mul_of_nonneg_right hcast (by norm_num)
  linarith

/-- One non-flagging yaw-violation frame grows the score by at least (1/10)*(1/10 + (3/10)*min(m+1,5)) whenever the streak is at least m, carries the streak up to min(m+1,5), and keeps the stored score in the threshold band. -/
theorem yaw_step_growth (st : PState) (m : Nat)
    (hsc : 0 ≤ st.cheat_percentage)
    (hm : m ≤ st.head_pose_violation_streak)
    (hnc : (analyze_step st 1 1 0).1.cheating_detected = false) :
    st.cheat_percentage + (1/10) * (1/10 + (3/10) * ((min (m + 1) 5 : Nat) : ℚ))
        ≤ (yaw_step st).cheat_percentage ∧
    min (m + 1) 5 ≤ (yaw_step st).head_pose_violation_streak ∧
    0 ≤ (yaw_step st).cheat_percentage ∧
    (yaw_step st).cheat_percentage ≤ CHEAT_THRESH := by
  have hstep : analyze_step st 1 1 0 = single_face_step st 1 0 := by
    simp [analyze_step]
  have hle : ¬ (new_cheat_percentage st 1 0 > CHEAT_THRESH) := by
    intro hgt
    rw [hstep] at hnc
    unfold single_face_step at hnc
    rw [if_pos hgt] at hnc
    simp at hnc
  have hys : yaw_step st =
      ⟨0, 0, new_cheat_percentage st 1 0, 0, updated_head_pose_streak st 1 0⟩ := by
    unfold yaw_step
    rw [hstep]
    unfold single_face_step
    rw [if_neg hle]
  have hsteq : updated_head_pose_streak st 1 0 =
      min (st.head_pose_violation_streak + 1) 5 := by
    unfold updated_head_pose_streak
    rw [if_pos (Or.inl rfl)]
    rfl
  have hcv := current_val_for_avg_violation st 1 0 (Or.inl rfl)
  rw [show (MAX_HEAD_POSE_STREAK_PENALTY : Nat) = 5 from rfl,
    STREAK_PENALTY_INCREMENT] at hcv
  have hbase1 : 1/10 ≤ current_val_table st.global_cheat_flag 1 0 0 :=
    current_val_table_violation st.global_cheat_flag 1 0 (Or.inl rfl)
  have hmincast : ((min (m + 1) 5 : Nat) : ℚ) ≤
      ((min (st.head_pose_violation_streak + 1) 5 : Nat) : ℚ) := by
    exact_mod_cast Nat.cast_le.mpr (min_le_min (Nat.succ_le_succ hm) le_rfl)
  have hmin0 : (0:ℚ) ≤ ((min (m + 1) 5 : Nat) : ℚ) := Nat.cast_nonneg _
  have hminst0 : (0:ℚ) ≤ ((min (st.head_pose_violation_streak + 1) 5 : Nat) : ℚ) :=
    Nat.cast_nonneg _
  have hcvge : 1/10 + (3/10) * ((min (m + 1) 5 : Nat) : ℚ) ≤
      current_val_for_avg st 1 0 := by
    rw [hcv]
    nlinarith
  have hcvpos : 0 < current_val_for_avg st 1 0 := by
    have : (0:ℚ) < 1/10 + (3/10) * ((min (m + 1) 5 : Nat) : ℚ) := by nlinarith
    linarith
  have hsc1 : st.cheat_percentage ≤ 1 := by
    by_contra hgt1
    push_neg at hgt1
    have hnew : new_cheat_percentage st 1 0 = 65/100 := by
      unfold new_cheat_percentage avg
      rw [if_pos hgt1]
    rw [hnew] at hle
    norm_num [CHEAT_THRESH] at hle
  have hnewge : st.cheat_percentage +
      (1/10) * (1/10 + (3/10) * ((min (m + 1) 5 : Nat) : ℚ)) ≤
      new_cheat_percentage st 1 0 := by
    rcases eq_or_lt_of_le hsc with hz | hpos
    · have hznew : new_cheat_percentage st 1 0 = current_val_for_avg st 1 0 := by
        unfold new_cheat_percentage avg
        rw [if_neg (not_lt.mpr hsc1), if_neg (ne_of_gt hcvpos), if_pos hz.symm]
      rw [hznew, ← hz]
      nlinarith
    · have hpnew : new_cheat_percentage st 1 0 =
          1 * st.cheat_percentage + (1/10) * current_val_for_avg st 1 0 := by
        unfold new_cheat_percentage avg
        rw [if_neg (not_lt.mpr hsc1), if_neg (ne_of_gt hcvpos),
          if_neg (ne_of_gt hpos)]
      rw [hpnew]
      nlinarith
  refine ⟨?_, ?_, ?_, ?_⟩
  · rw [hys]
    exact hnewge
  · rw [hys]
    show min (m + 1) 5 ≤ updated_head_pose_streak st 1 0
    rw [hsteq]
    exact min_le_min (Nat.succ_le_succ hm) le_rfl
  · rw [hys]
    exact new_cheat_percentage_nonneg st hsc 1 0
  · rw [hys]
    exact not_lt.mp hle

end Proctoring

namespace Proctoring

/-- Claim C8: from any session state with a non-negative stored score, running single-face frames with a yaw violation on every frame produces a cheating verdict within 6 frames, a fixed bound determined by the configuration constants. -/
theorem claim_C8 (st : PState) (h : 0 ≤ st.cheat_percentage) :
    ∃ k, k < 6 ∧ (analyze_step (yaw_run st k) 1 1 0).1.cheating_detected = true := by
  by_contra hcon
  push_neg at hcon
  have hf : ∀ k, k < 6 →
      (analyze_step (yaw_run st k) 1 1 0).1.cheating_detected = false := by
    intro k hk
    have hx := hcon k hk
    simpa using hx
  have g0 := yaw_step_growth (yaw_run st 0) 0 h (Nat.zero_le _) (hf 0 (by norm_num))
  have g1 := yaw_step_growth (yaw_run st 1) 1 g0.2.2.1 g0.2.1 (hf 1 (by norm_num))
  have g2 := yaw_step_growth (yaw_run st 2) 2 g1.2.2.1 g1.2.1 (hf 2 (by norm_num))
  have g3 := yaw_step_growth (yaw_run st 3) 3 g2.2.2.1 g2.2.1 (hf 3 (by norm_num))
  have g4 := yaw_step_growth (yaw_run st 4) 4 g3.2.2.1 g3.2.1 (hf 4 (by norm_num))
  have g5 := yaw_step_growth (yaw_run st 5) 5 g4.2.2.1 g4.2.1 (hf 5 (by norm_num))
  have e0 := g0.1
  have e1 := g1.1
  have e2 := g2.1
  have e3 := g3.1
  have e4 := g4.1
  have e5 := g5.1
  have hcap := g5.2.2.2
  norm_num [CHEAT_THRESH] at e0 e1 e2 e3 e4 e5 hcap
  have hy1 : yaw_step (yaw_run st 0) = yaw_run st 1 := rfl
  have hy2 : yaw_step (yaw_run st 1) = yaw_run st 2 := rfl
  have hy3 : yaw_step (yaw_run st 2) = yaw_run st 3 := rfl
  have hy4 : yaw_step (yaw_run st 3) = yaw_run st 4 := rfl
  have hy5 : yaw_step (yaw_run st 4) = yaw_run st 5 := rfl
  rw [hy1] at e0
  rw [hy2] at e1
  rw [hy3] at e2
  rw [hy4] at e3
  rw [hy5] at e4
  have h0 : (yaw_run st 0).cheat_percentage = st.cheat_percentage := rfl
  rw [h0] at e0
  linarith

/-- Claim C8 witness: the bounded-detection theorem instantiated at the fresh state (where the verdict in fact fires on the fourth frame). -/
theorem claim_C8_witness :
    (0:ℚ) ≤ FRESH_STATE.cheat_percentage ∧
    ∃ k, k < 6 ∧
      (analyze_step (yaw_run FRESH_STATE k) 1 1 0).1.cheating_detected = true :=
  ⟨by norm_num [FRESH_STATE], claim_C8 FRESH_STATE (by norm_num [FRESH_STATE])⟩

/-- Claim C9 is false for rejected frame inputs: a missing-frame call touches no state, so after clear the user record is absent while after initialize it is the fresh record; the two resulting stores differ even though the verdicts agree. -/
theorem claim_C9_counterexample :
    (analyze_frame_proctoring 0 FrameInput.missing
        (clear_proctoring_state 0 (fun _ => none))).2 0 = none ∧
    (analyze_frame_proctoring 0 FrameInput.missing
        (init_proctoring_state 0 (fun _ => none))).2 0 = some FRESH_STATE ∧
    (analyze_frame_proctoring 0 FrameInput.missing
        (clear_proctoring_state 0 (fun _ => none))).2 ≠
      (analyze_frame_proctoring 0 FrameInput.missing
        (init_proctoring_state 0 (fun _ => none))).2 ∧
    (analyze_frame_proctoring 0 FrameInput.missing
        (clear_proctoring_state 0 (fun _ => none))).1 =
      (analyze_frame_proctoring 0 FrameInput.missing
        (init_proctoring_state 0 (fun _ => none))).1 := by
  refine ⟨rfl, rfl, ?_, rfl⟩
  intro hEq
  have hpt := congrFun hEq 0
  simp [analyze_frame_proctoring, clear_proctoring_state, init_proctoring_state] at hpt

/-- Claim C9 (amended): for every decoded frame, analyze after clear is identical, in verdict and in resulting store, to analyze after initialize, because the self-healing path starts from the same fresh record that initialize writes; for rejected inputs the verdicts still agree, and only the presence of the untouched fresh record distinguishes the stores. -/
theorem claim_C9_amended (s : Nat → Option PState) (u : Nat) (n : Nat)
    (pose : Option (ℚ × ℚ)) :
    analyze_frame_proctoring u (FrameInput.frame n pose) (clear_proctoring_state u s) =
      analyze_frame_proctoring u (FrameInput.frame n pose) (init_proctoring_state u s) ∧
    ∀ input : FrameInput,
      (analyze_frame_proctoring u input (clear_proctoring_state u s)).1 =
        (analyze_frame_proctoring u input (init_proctoring_state u s)).1 := by
  have hget : ((clear_proctoring_state u s) u).getD FRESH_STATE =
      ((init_proctoring_state u s) u).getD FRESH_STATE := by
    simp [clear_proctoring_state, init_proctoring_state]
  constructor
  · simp only [analyze_frame_proctoring]
    rw [hget]
    refine congrArg (Prod.mk _) ?_
    funext v
    by_cases hv : v = u
    · simp [hv]
    · simp [hv, clear_proctoring_state, init_proctoring_state]
  · intro input
    cases input with
    | missing => rfl
    | invalidBase64 => rfl
    | undecodableImage => rfl
    | frame n2 pose2 =>
        simp only [analyze_frame_proctoring]
        rw [hget]

/-- Claim C10: a missing frame, invalid base64 data or an undecodable image makes analyze return success false and cheating_detected false while leaving the user-keyed store completely unchanged. -/
theorem claim_C10 (s : Nat → Option PState) (u : Nat) (input : FrameInput)
    (h : input = FrameInput.missing ∨ input = FrameInput.invalidBase64 ∨
      input = FrameInput.undecodableImage) :
    (analyze_frame_proctoring u input s).1.success = false ∧
    (analyze_frame_proctoring u input s).1.cheating_detected = false ∧
    (analyze_frame_proctoring u input s).2 = s := by
  rcases h with h | h | h <;> subst h <;> exact ⟨rfl, rfl, rfl⟩

/-- Claim C10 witness: the error-handling theorem instantiated with a missing frame on the empty store. -/
theorem claim_C10_witness :
    (FrameInput.missing = FrameInput.missing ∨
      FrameInput.missing = FrameInput.invalidBase64 ∨
      FrameInput.missing = FrameInput.undecodableImage) ∧
    ((analyze_frame_proctoring 0 FrameInput.missing (fun _ => none)).1.success = false ∧
     (analyze_frame_proctoring 0 FrameInput.missing
        (fun _ => none)).1.cheating_detected = false ∧
     (analyze_frame_proctoring 0 FrameInput.missing (fun _ => none)).2 =
       (fun _ => none)) :=
  ⟨Or.inl rfl, claim_C10 (fun _ => none) 0 FrameInput.missing (Or.inl rfl)⟩

end Proctoring
